import Mathlib

/-!
Verification of the Query Execution & Access-Control Gateway
(src/src/mcp_snowflake_server/http_server.py) against its design spec.

The HTTP transport is external; requests arrive already decoded.  The
database driver (db_client.SnowflakeDB) is embedded as an oracle
`db : String → DBResult`; every definition additionally returns the list of
SQL strings it passed to the oracle, so "the database is never reached"
is the statement that this trace is empty.
-/

namespace Snowflake

/-- One executed statement's outcome, as `SnowflakeDB.execute_query`
returns it: the rows and the stable result identifier. -/
structure DBResult where
  data : List (List String)
  data_id : Nat
deriving DecidableEq

/-- Modelled from the spec: the classification returned by the
SQL Write-Safety Classifier (`write_detector.SQLWriteDetector`, whose
source file is not in the repository snapshot): whether the SQL could
mutate state, plus the construct that triggered the decision. -/
structure ClassificationResult where
  contains_write : Bool
  matched_construct : Option String
deriving DecidableEq

/-- ASCII model of Python str.upper (identifiers here are ASCII). -/
def py_upper (s : String) : String :=
  String.mk (s.data.map Char.toUpper)

/-- Model of Python str.split(".") : splitting on every dot, keeping
empty segments, never returning an empty list. -/
def splitDotAux : List Char → List Char → List String
  | [], acc => [String.mk acc.reverse]
  | c :: cs, acc =>
    if c = '.' then String.mk acc.reverse :: splitDotAux cs []
    else splitDotAux cs (c :: acc)

def py_split_dot (s : String) : List String :=
  splitDotAux s.data []

/-- Scanner state for comment/literal stripping. -/
inductive StripState
  | normal | lineComment | blockComment | inSingle | inDouble

/-- Modelled from the spec: step 1 of the classifier algorithm.  Line
comments, block comments and the contents of single- and double-quoted
literals are removed before keyword matching; an unterminated quote is
malformed input (`none`), which the classifier resolves fail-closed. -/
def stripChars : StripState → List Char → Option (List Char)
  | .normal, [] => some []
  | .normal, '-' :: '-' :: cs => stripChars .lineComment cs
  | .normal, '/' :: '*' :: cs => stripChars .blockComment cs
  | .normal, '\'' :: cs => stripChars .inSingle cs
  | .normal, '"' :: cs => stripChars .inDouble cs
  | .normal, c :: cs => (stripChars .normal cs).map (c :: ·)
  | .lineComment, [] => some []
  | .lineComment, '\n' :: cs => (stripChars .normal cs).map ('\n' :: ·)
  | .lineComment, _ :: cs => stripChars .lineComment cs
  | .blockComment, [] => some []
  | .blockComment, '*' :: '/' :: cs => (stripChars .normal cs).map (' ' :: ·)
  | .blockComment, _ :: cs => stripChars .blockComment cs
  | .inSingle, [] => none
  | .inSingle, '\'' :: cs => (stripChars .normal cs).map (' ' :: ·)
  | .inSingle, _ :: cs => stripChars .inSingle cs
  | .inDouble, [] => none
  | .inDouble, '"' :: cs => (stripChars .normal cs).map (' ' :: ·)
  | .inDouble, _ :: cs => stripChars .inDouble cs

def stripSql (s : String) : Option String :=
  (stripChars .normal s.data).map fun cs => String.mk cs

/-- Modelled from the spec: step 2, splitting the cleaned text on
top-level `;` (outside parentheses; literals are already stripped). -/
def splitTopAux : List Char → Nat → List Char → List String
  | [], _, acc => [String.mk acc.reverse]
  | c :: cs, d, acc =>
    if c = ';' ∧ d = 0 then String.mk acc.reverse :: splitTopAux cs 0 []
    else if c = '(' then splitTopAux cs (d + 1) (c :: acc)
    else if c = ')' then splitTopAux cs (d - 1) (c :: acc)
    else splitTopAux cs d (c :: acc)

def splitTop (s : String) : List String :=
  splitTopAux s.data 0 []

def isWordChar (c : Char) : Bool :=
  c.isAlphanum ∨ c = '_' ∨ c = '$'

/-- Whole-token lexer for a cleaned sub-statement: identifier/keyword
words, with parentheses and commas as their own tokens. -/
def tokenizeAux : List Char → List Char → List String
  | [], w => if w = [] then [] else [String.mk w.reverse]
  | c :: cs, w =>
    if isWordChar c then tokenizeAux cs (c :: w)
    else
      let pre := if w = [] then [] else [String.mk w.reverse]
      if c = '(' ∨ c = ')' ∨ c = ',' then pre ++ [String.mk [c]] ++ tokenizeAux cs []
      else pre ++ tokenizeAux cs []

def tokenize (s : String) : List String :=
  tokenizeAux s.data []

/-- Skip tokens up to and including the parenthesis matching depth `d`. -/
def skipBalanced : Nat → List String → List String
  | _, [] => []
  | d, t :: ts =>
    if t = "(" then skipBalanced (d + 1) ts
    else if t = ")" then (if d ≤ 1 then ts else skipBalanced (d - 1) ts)
    else skipBalanced d ts

/-- Modelled from the spec: skip an optional `WITH name AS ( ... ), ...`
common-table-expression prefix, leaving the final statement's tokens.
Fuel bounds the number of CTE bodies skipped. -/
def skipCtes : Nat → List String → List String
  | 0, ts => ts
  | fuel + 1, ts =>
    match ts with
    | _ :: kw :: "(" :: rest =>
      if py_upper kw = "AS" then
        match skipBalanced 1 rest with
        | "," :: more => skipCtes fuel more
        | more => more
      else ts
    | _ => ts

/-- Modelled from the spec: the deny-list of leading keywords that mark a
statement as mutating data, schema or session configuration. -/
def write_keywords : List String :=
  ["INSERT", "UPDATE", "DELETE", "MERGE", "CREATE", "ALTER", "DROP",
   "TRUNCATE", "GRANT", "REVOKE", "COPY", "CALL", "USE", "SET"]

/-- Modelled from the spec: leading keywords recognized as read-only. -/
def read_keywords : List String :=
  ["SELECT", "SHOW", "DESCRIBE", "EXPLAIN"]

/-- Modelled from the spec: steps 3-5 on one sub-statement's tokens.
`some k` means the sub-statement contains a write, with `k` the matched
construct; unrecognized leading keywords fail closed. -/
def classifySub : List String → Option String
  | [] => none
  | t :: rest =>
    let u := py_upper t
    if u = "WITH" then
      match skipCtes rest.length rest with
      | [] => some "WITH"
      | t2 :: _ =>
        let u2 := py_upper t2
        if write_keywords.contains u2 then some u2
        else if u2 = "SELECT" then none
        else some u2
    else if write_keywords.contains u then some u
    else if read_keywords.contains u then none
    else some u

/-- Modelled from the spec: `SQLWriteDetector.analyze_query` (the file
write_detector.py is not in the repository snapshot).  Strips comments
and literals, splits on top-level `;`, classifies each sub-statement,
and reports a write when any sub-statement contains one; malformed
quoting resolves fail-closed to a write. -/
def analyze_query (sql : String) : ClassificationResult :=
  match stripSql sql with
  | none => { contains_write := true, matched_construct := some "UNTERMINATED_LITERAL" }
  | some cleaned =>
    match (splitTop cleaned).filterMap (fun sub => classifySub (tokenize sub)) with
    | [] => { contains_write := false, matched_construct := none }
    | k :: _ => { contains_write := true, matched_construct := some k }

/-- The first significant keyword of a sub-statement, after an optional
CTE prefix: the notion used to state the deny-list property. -/
def leading_keyword (tokens : List String) : Option String :=
  match tokens with
  | [] => none
  | t :: rest =>
    if py_upper t = "WITH" then
      match skipCtes rest.length rest with
      | [] => none
      | t2 :: _ => some (py_upper t2)
    else some (py_upper t)

/-! ## The HTTP server (src/src/mcp_snowflake_server/http_server.py) -/

/-- Python truthiness of an optional string: `if not x` fails for an
absent value and for the empty string. -/
def pyTruthy : Option String → Option String
  | none => none
  | some s => if s = "" then none else some s

/-- Python f-string rendering of an optional value (`None` when absent). -/
def pyStr : Option String → String
  | none => "None"
  | some s => s

/-- The named arguments a tool call can carry (`arguments.get(...)`). -/
structure ToolArgs where
  database : Option String := none
  schema : Option String := none
  table_name : Option String := none
  query : Option String := none
deriving DecidableEq

/-- The dictionary each tool handler serializes with `json.dumps`. -/
inductive ToolOutput
  | databasesResult (data : List (List String)) (data_id : Nat)
  | schemasResult (database : String) (data : List (List String)) (data_id : Nat)
  | tablesResult (database schema : String) (data : List (List String)) (data_id : Nat)
  | columnsResult (database schema table : String) (data : List (List String)) (data_id : Nat)
  | queryResult (data : List (List String)) (data_id : Nat) (row_count : Nat)
deriving DecidableEq

def list_databases_query : String :=
  "SELECT DATABASE_NAME FROM INFORMATION_SCHEMA.DATABASES"

def list_schemas_query (database : String) : String :=
  "SELECT SCHEMA_NAME FROM " ++ py_upper database ++ ".INFORMATION_SCHEMA.SCHEMATA"

def list_tables_query (database schema : String) : String :=
  "\n            SELECT table_catalog, table_schema, table_name, comment\n            FROM "
    ++ database
    ++ ".information_schema.tables\n            WHERE table_schema = '"
    ++ py_upper schema
    ++ "'\n        "

def describe_table_query (database_name schema_name tbl_name : String) : String :=
  "\n            SELECT column_name, column_default, is_nullable, data_type, comment\n            FROM "
    ++ database_name
    ++ ".information_schema.columns\n            WHERE table_schema = '"
    ++ schema_name
    ++ "' AND table_name = '"
    ++ tbl_name
    ++ "'\n        "

/-- `execute_mcp_tool(tool_name, arguments)`.  `wdet` is the global
write detector's `analyze_query`, `db` the global client's
`execute_query`; a raised `ValueError` is the `.error` case.  The second
component is the list of SQL strings passed to `db`. -/
def execute_mcp_tool (wdet : String → ClassificationResult) (db : String → DBResult)
    (tool_name : Option String) (arguments : ToolArgs) :
    Except String ToolOutput × List String :=
  if tool_name = some "list_databases" then
    let query := list_databases_query
    let r := db query
    (.ok (.databasesResult r.data r.data_id), [query])
  else if tool_name = some "list_schemas" then
    match pyTruthy arguments.database with
    | none => (.error "Missing required 'database' parameter", [])
    | some database =>
      let query := list_schemas_query database
      let r := db query
      (.ok (.schemasResult database r.data r.data_id), [query])
  else if tool_name = some "list_tables" then
    match pyTruthy arguments.database, pyTruthy arguments.schema with
    | some database, some schema =>
      let query := list_tables_query database schema
      let r := db query
      (.ok (.tablesResult database schema r.data r.data_id), [query])
    | _, _ => (.error "Missing required 'database' and 'schema' parameters", [])
  else if tool_name = some "describe_table" then
    match pyTruthy arguments.table_name with
    | none => (.error "Missing required 'table_name' parameter", [])
    | some table_name =>
      let split_identifier := py_split_dot table_name
      if split_identifier.length < 3 then
        (.error "Table name must be fully qualified as 'database.schema.table'", [])
      else
        let database_name := py_upper (split_identifier.getD 0 "")
        let schema_name := py_upper (split_identifier.getD 1 "")
        let tbl_name := py_upper (split_identifier.getD 2 "")
        let query := describe_table_query database_name schema_name tbl_name
        let r := db query
        (.ok (.columnsResult database_name schema_name tbl_name r.data r.data_id), [query])
  else if tool_name = some "read_query" then
    match pyTruthy arguments.query with
    | none => (.error "Missing required 'query' parameter", [])
    | some query =>
      if (wdet query).contains_write then
        (.error "Calls to read_query should not contain write operations", [])
      else
        let r := db query
        (.ok (.queryResult r.data r.data_id r.data.length), [query])
  else
    (.error ("Unknown tool: " ++ pyStr tool_name), [])

/-- One input-schema property of a registered tool. -/
structure ToolProperty where
  property_name : String
  property_type : String
  description : String
deriving DecidableEq

/-- One entry of the fixed tool registry `MCP_TOOLS`. -/
structure ToolDescriptor where
  name : String
  description : String
  properties : List ToolProperty
  required : List String
deriving DecidableEq

/-- The fixed tool registry, registered once at module load. -/
def MCP_TOOLS : List ToolDescriptor :=
  [{ name := "list_databases",
     description := "List all available databases in Snowflake",
     properties := [], required := [] },
   { name := "list_schemas",
     description := "List all schemas in a database",
     properties := [⟨"database", "string", "Database name to list schemas from"⟩],
     required := ["database"] },
   { name := "list_tables",
     description := "List all tables in a specific database and schema",
     properties := [⟨"database", "string", "Database name"⟩,
                    ⟨"schema", "string", "Schema name"⟩],
     required := ["database", "schema"] },
   { name := "describe_table",
     description := "Get the schema information for a specific table",
     properties := [⟨"table_name", "string",
       "Fully qualified table name in the format 'database.schema.table'"⟩],
     required := ["table_name"] },
   { name := "read_query",
     description := "Execute a SELECT query",
     properties := [⟨"query", "string", "SELECT SQL query to execute"⟩],
     required := ["query"] }]

/-- `params` of a JSON-RPC request (`params.get("name")`,
`params.get("arguments", \x7b\x7d)`). -/
structure MCPParams where
  name : Option String := none
  arguments : ToolArgs := {}
deriving DecidableEq

/-- A decoded JSON-RPC request body. -/
structure MCPRequest where
  jsonrpc : Option String := none
  method : Option String := none
  params : MCPParams := {}
  id : Option Nat := none
deriving DecidableEq

/-- The text of a tools/call content item: the serialized handler
output on success, or the rendered error message. -/
inductive ToolText
  | output (o : ToolOutput)
  | errText (s : String)
deriving DecidableEq

/-- A successful JSON-RPC payload. -/
inductive RPCResult
  | initializeResult (protocolVersion serverName serverVersion : String)
  | toolsList (tools : List ToolDescriptor)
  | toolsCall (content : ToolText) (isError : Bool)
deriving DecidableEq

/-- The `result` or `error` member of the response envelope. -/
inductive RPCBody
  | ok (result : RPCResult)
  | err (code : Int) (message : String)
deriving DecidableEq

/-- What `mcp_endpoint` sends back: a bare 204 for the initialized
notification, or a JSON envelope with an HTTP status. -/
inductive HTTPResponse
  | empty204
  | json (jsonrpc : String) (id : Option Nat) (body : RPCBody) (status : Nat)
deriving DecidableEq

/-- `mcp_endpoint(request)`.  `decoded` is the request body after JSON
parsing; `.error e` stands for an exception raised before dispatch
(body parsing or client initialization), handled by the outer
`except` clause. -/
def mcp_endpoint (wdet : String → ClassificationResult) (db : String → DBResult)
    (decoded : Except String MCPRequest) : HTTPResponse :=
  match decoded with
  | .error e => .json "2.0" none (.err (-32603) e) 500
  | .ok data =>
    let jsonrpc := data.jsonrpc.getD "2.0"
    if data.method = some "initialize" then
      .json jsonrpc data.id
        (.ok (.initializeResult "2024-11-05" "snowflake-mcp-server" "0.4.0")) 200
    else if data.method = some "tools/list" then
      .json jsonrpc data.id (.ok (.toolsList MCP_TOOLS)) 200
    else if data.method = some "tools/call" then
      match execute_mcp_tool wdet db data.params.name data.params.arguments with
      | (.ok out, _) => .json jsonrpc data.id (.ok (.toolsCall (.output out) false)) 200
      | (.error e, _) =>
        .json jsonrpc data.id (.ok (.toolsCall (.errText ("Error: " ++ e)) true)) 200
    else if data.method = some "notifications/initialized" then
      .empty204
    else
      .json jsonrpc data.id
        (.err (-32601) ("Method not found: " ++ pyStr data.method)) 200

/-- A whole connection's worth of requests: the server keeps no
per-session handshake state, so each request is dispatched
independently of every earlier one. -/
def process_session (wdet : String → ClassificationResult) (db : String → DBResult)
    (requests : List (Except String MCPRequest)) : List HTTPResponse :=
  requests.map (mcp_endpoint wdet db)

/-- A REST endpoint's reply: payload plus HTTP status. -/
inductive APIResponse
  | ok (data : List (List String)) (data_id : Nat) (row_count : Nat)
  | tables (database schema : String) (data : List (List String)) (data_id : Nat)
  | columns (database schema table : String) (data : List (List String)) (data_id : Nat)
  | err (message : String) (status : Nat)
deriving DecidableEq

/-- `execute_query_endpoint` (POST /api/query): `body_query` is
`data.get("query")`.  The second component is the list of SQL strings
passed to `db`; the handler never consults the write detector. -/
def execute_query_endpoint (db : String → DBResult) (body_query : Option String) :
    APIResponse × List String :=
  match pyTruthy body_query with
  | none => (.err "Missing 'query' parameter" 400, [])
  | some query =>
    let r := db query
    (.ok r.data r.data_id r.data.length, [query])

/-- `list_tables_endpoint` (GET /api/tables). -/
def list_tables_endpoint (db : String → DBResult)
    (database schema : Option String) : APIResponse × List String :=
  match pyTruthy database, pyTruthy schema with
  | some d, some s =>
    let query := list_tables_query d s
    let r := db query
    (.tables d s r.data r.data_id, [query])
  | _, _ => (.err "Missing 'database' or 'schema' parameter" 400, [])

/-- `describe_table_endpoint` (GET /api/table/describe). -/
def describe_table_endpoint (db : String → DBResult)
    (table : Option String) : APIResponse × List String :=
  match pyTruthy table with
  | none => (.err "Missing 'table' parameter (format: database.schema.table)" 400, [])
  | some table_name =>
    let split_identifier := py_split_dot table_name
    if split_identifier.length < 3 then
      (.err "Table name must be fully qualified as 'database.schema.table'" 400, [])
    else
      let database_name := py_upper (split_identifier.getD 0 "")
      let schema_name := py_upper (split_identifier.getD 1 "")
      let tbl_name := py_upper (split_identifier.getD 2 "")
      let query := describe_table_query database_name schema_name tbl_name
      let r := db query
      (.columns database_name schema_name tbl_name r.data r.data_id, [query])

/-! ## Global client initialization (`init_db_client`) -/

/-- The constructed `SnowflakeDB` client: it holds the connection
arguments assembled from the environment. -/
structure SnowflakeDB where
  connection_args : List (String × String)
deriving DecidableEq

/-- The module-level globals `db_client` and `write_detector`. -/
structure ServerState where
  db_client : Option SnowflakeDB := none
  write_detector : Option Unit := none
deriving DecidableEq

/-- The observable side effects of `init_db_client` beyond the globals:
re-reading the environment file and opening the connection. -/
inductive InitEffect
  | load_dotenv
  | start_init_connection
deriving DecidableEq

/-- The keys of `snowflake.connector.connection.DEFAULT_CONFIGURATION`
(an external library constant; a representative subset). -/
def DEFAULT_CONFIGURATION : List String :=
  ["account", "user", "password", "host", "port", "database", "schema",
   "warehouse", "role"]

/-- The dict comprehension over `DEFAULT_CONFIGURATION`: keep each key
whose `SNOWFLAKE_`-prefixed upper-cased variable is present. -/
def connection_args_from_env (env : String → Option String) : List (String × String) :=
  DEFAULT_CONFIGURATION.filterMap fun k =>
    (env ("SNOWFLAKE_" ++ py_upper k)).map fun v => (k, v)

/-- Python dict assignment `d[k] = v`: replace an existing binding or
append a new one. -/
def dict_set (args : List (String × String)) (k v : String) : List (String × String) :=
  if args.any (fun p => p.1 = k) then
    args.map fun p => if p.1 = k then (k, v) else p
  else args ++ [(k, v)]

/-- `init_db_client()`: returns the new globals (or the `ValueError`
message) together with the effects performed. -/
def init_db_client (env : String → Option String) (s : ServerState) :
    Except String ServerState × List InitEffect :=
  if s.db_client.isSome then (.ok s, [])
  else
    let args0 := connection_args_from_env env
    let args :=
      match env "SNOWFLAKE_TOKEN" with
      | some tok => if tok = "" then args0 else dict_set args0 "password" tok
      | none => args0
    if ¬ args.any (fun p => p.1 = "database") then
      (.error "SNOWFLAKE_DATABASE environment variable is required", [.load_dotenv])
    else if ¬ args.any (fun p => p.1 = "schema") then
      (.error "SNOWFLAKE_SCHEMA environment variable is required", [.load_dotenv])
    else
      (.ok { db_client := some { connection_args := args }, write_detector := some () },
       [.load_dotenv, .start_init_connection])

/-- A trivial database oracle, used to instantiate theorems at
concrete inputs. -/
def db0 : String → DBResult := fun _ => { data := [], data_id := 0 }

instance {e a : Type} [DecidableEq e] [DecidableEq a] : DecidableEq (Except e a) := fun x y =>
  match x, y with
  | .error u, .error v =>
    if h : u = v then isTrue (by rw [h]) else isFalse (fun hh => h (Except.error.inj hh))
  | .error _, .ok _ => isFalse (fun hh => Except.noConfusion hh)
  | .ok _, .error _ => isFalse (fun hh => Except.noConfusion hh)
  | .ok u, .ok v =>
    if h : u = v then isTrue (by rw [h]) else isFalse (fun hh => h (Except.ok.inj hh))

/-- The ten deny-list keywords named by the spec's testable property
(the claim's list, a subset of the full `write_keywords` deny-list). -/
def claim_deny_list : List String :=
  ["INSERT", "UPDATE", "DELETE", "MERGE", "CREATE", "ALTER", "DROP",
   "TRUNCATE", "GRANT", "REVOKE"]

/-! ## Theorems -/

/-- A sub-statement whose leading keyword (after an optional CTE
prefix) is on the deny-list is classified as containing a write. -/
lemma classifySub_isSome_of_leading (ts : List String) (k : String)
    (hk : leading_keyword ts = some k) (hw : k ∈ write_keywords) :
    (classifySub ts).isSome := by
  cases ts with
  | nil => simp [leading_keyword] at hk
  | cons t rest =>
    by_cases hW : py_upper t = "WITH"
    · rw [leading_keyword] at hk
      simp only [hW, ite_true, if_true] at hk
      cases hcte : skipCtes rest.length rest with
      | nil => rw [hcte] at hk; simp at hk
      | cons t2 ts2 =>
        rw [hcte] at hk
        simp only [Option.some.injEq] at hk
        subst hk
        simp [classifySub, hW, hcte, hw]
    · rw [leading_keyword] at hk
      simp only [if_neg hW, Option.some.injEq] at hk
      subst hk
      simp [classifySub, hW, hw]

/-- C1: when the classifier reports that the query of a `read_query`
invocation contains a write, the handler returns the policy-violation
error and passes no SQL to the database client: the trace of queries
sent to `db` is empty. -/
theorem c1_read_query_gated (wdet : String → ClassificationResult)
    (db : String → DBResult) (args : ToolArgs) (q : String)
    (hq : args.query = some q) (hne : q ≠ "")
    (hw : (wdet q).contains_write = true) :
    execute_mcp_tool wdet db (some "read_query") args =
      (.error "Calls to read_query should not contain write operations", []) := by
  simp [execute_mcp_tool, pyTruthy, hq, hne, hw]

/-- C1 witness: `read_query` with `DELETE FROM t` under the modelled
classifier is rejected without any database call. -/
theorem c1_read_query_gated_witness :
    ({ query := some "DELETE FROM t" } : ToolArgs).query = some "DELETE FROM t" ∧
    "DELETE FROM t" ≠ "" ∧
    (analyze_query "DELETE FROM t").contains_write = true ∧
    execute_mcp_tool analyze_query db0 (some "read_query")
        { query := some "DELETE FROM t" } =
      (.error "Calls to read_query should not contain write operations", []) :=
  ⟨rfl, by decide, by decide,
   c1_read_query_gated analyze_query db0 { query := some "DELETE FROM t" }
     "DELETE FROM t" rfl (by decide) (by decide)⟩

/-- C2 counterexample: a session whose very first request is
`tools/list` (no prior `initialize`) receives the registered tool list
as a successful result, not a "not initialized" protocol error: the
dispatcher keeps no handshake state. -/
theorem c2_uninitialized_counterexample :
    process_session analyze_query db0 [.ok { method := some "tools/list" }] =
      [.json "2.0" none (.ok (.toolsList MCP_TOOLS)) 200] := by
  decide

/-- C2 amended: the dispatcher is stateless; every `tools/list` request
is answered with the registered tool set regardless of whether an
`initialize` request ever preceded it. -/
theorem c2_tools_list_always_accepted (wdet : String → ClassificationResult)
    (db : String → DBResult) (jr : Option String) (rid : Option Nat)
    (prms : MCPParams) :
    mcp_endpoint wdet db (.ok ⟨jr, some "tools/list", prms, rid⟩) =
      .json (jr.getD "2.0") rid (.ok (.toolsList MCP_TOOLS)) 200 := rfl

/-- C3: any SQL string that, after comment/literal stripping, has a
semicolon-separated sub-statement whose leading keyword (at top level
or after a CTE prefix) is INSERT, UPDATE, DELETE, MERGE, CREATE, ALTER,
DROP, TRUNCATE, GRANT or REVOKE is classified as containing a write. -/
theorem c3_deny_list_flags_write (sql cleaned sub k : String)
    (h1 : stripSql sql = some cleaned)
    (h2 : sub ∈ splitTop cleaned)
    (h3 : leading_keyword (tokenize sub) = some k)
    (h4 : k ∈ claim_deny_list) :
    (analyze_query sql).contains_write = true := by
  have hw : k ∈ write_keywords := by
    simp [claim_deny_list] at h4
    rcases h4 with rfl | rfl | rfl | rfl | rfl | rfl | rfl | rfl | rfl | rfl <;> decide
  have hsome := classifySub_isSome_of_leading (tokenize sub) k h3 hw
  have hred : analyze_query sql =
      match (splitTop cleaned).filterMap (fun sub => classifySub (tokenize sub)) with
      | [] => { contains_write := false, matched_construct := none }
      | k :: _ => { contains_write := true, matched_construct := some k } := by
    rw [analyze_query, h1]
    try rfl
  cases hl : (splitTop cleaned).filterMap (fun sub => classifySub (tokenize sub)) with
  | nil =>
    exfalso
    have := List.filterMap_eq_nil_iff.mp hl sub h2
    rw [this] at hsome
    simp at hsome
  | cons a b => rw [hred, hl]

/-- C3 witness: `SELECT 1; DROP TABLE t` is flagged through its second
sub-statement's leading DROP keyword. -/
theorem c3_deny_list_flags_write_witness :
    stripSql "SELECT 1; DROP TABLE t" = some "SELECT 1; DROP TABLE t" ∧
    " DROP TABLE t" ∈ splitTop "SELECT 1; DROP TABLE t" ∧
    leading_keyword (tokenize " DROP TABLE t") = some "DROP" ∧
    "DROP" ∈ claim_deny_list ∧
    (analyze_query "SELECT 1; DROP TABLE t").contains_write = true :=
  ⟨by decide, by decide, by decide, by decide,
   c3_deny_list_flags_write "SELECT 1; DROP TABLE t" "SELECT 1; DROP TABLE t"
     " DROP TABLE t" "DROP" (by decide) (by decide) (by decide) (by decide)⟩

/-- C4: a POST to /api/query with a non-empty query passes the SQL
verbatim to the database client and returns its rows; the handler's
definition never consults the write detector, so mutating statements
are executed. -/
theorem c4_api_query_bypasses_classifier (db : String → DBResult) (q : String)
    (hne : q ≠ "") :
    execute_query_endpoint db (some q) =
      (.ok (db q).data (db q).data_id (db q).data.length, [q]) := by
  simp [execute_query_endpoint, pyTruthy, hne]

/-- C4 witness: the mutating statement `DROP TABLE t` submitted to
/api/query is sent to the database unexamined. -/
theorem c4_api_query_bypasses_classifier_witness :
    execute_query_endpoint db0 (some "DROP TABLE t") =
      (.ok [] 0 0, ["DROP TABLE t"]) :=
  c4_api_query_bypasses_classifier db0 "DROP TABLE t" (by decide)

/-- C5 counterexample: the unrecognized notification
`notifications/cancelled` is answered with the method-not-found
envelope error, not an empty success response. -/
theorem c5_unknown_notification_counterexample :
    mcp_endpoint analyze_query db0 (.ok { method := some "notifications/cancelled" }) =
      .json "2.0" none (.err (-32601) "Method not found: notifications/cancelled") 200 ∧
    mcp_endpoint analyze_query db0 (.ok { method := some "notifications/cancelled" }) ≠
      .empty204 := by
  constructor <;> decide

/-- C5 amended: only `notifications/initialized` is acknowledged with
an empty 204 response; every other `notifications/*` method falls
through to the method-not-found envelope error. -/
theorem c5_notifications_amended (wdet : String → ClassificationResult)
    (db : String → DBResult) (jr : Option String) (rid : Option Nat)
    (prms : MCPParams) (rest : String) (hrest : rest ≠ "initialized") :
    mcp_endpoint wdet db (.ok ⟨jr, some "notifications/initialized", prms, rid⟩) =
      .empty204 ∧
    mcp_endpoint wdet db (.ok ⟨jr, some ("notifications/" ++ rest), prms, rid⟩) =
      .json (jr.getD "2.0") rid
        (.err (-32601) ("Method not found: " ++ ("notifications/" ++ rest))) 200 := by
  have hlen : ("notifications/" : String).length = 14 := rfl
  have l10a : ("initialize" : String).length = 10 := rfl
  have l10b : ("tools/list" : String).length = 10 := rfl
  have l10c : ("tools/call" : String).length = 10 := rfl
  have h1 : "notifications/" ++ rest ≠ "initialize" := by
    intro h
    have hL := congrArg String.length h
    rw [String.length_append, hlen, l10a] at hL
    omega
  have h2 : "notifications/" ++ rest ≠ "tools/list" := by
    intro h
    have hL := congrArg String.length h
    rw [String.length_append, hlen, l10b] at hL
    omega
  have h3 : "notifications/" ++ rest ≠ "tools/call" := by
    intro h
    have hL := congrArg String.length h
    rw [String.length_append, hlen, l10c] at hL
    omega
  have h4 : "notifications/" ++ rest ≠ "notifications/initialized" := by
    intro h
    apply hrest
    have hd := congrArg String.data h
    rw [String.data_append] at hd
    have h14 : ("notifications/initialized" : String).data =
        ("notifications/" : String).data ++ ("initialized" : String).data := rfl
    rw [h14] at hd
    have := List.append_cancel_left hd
    exact String.ext this
  exact ⟨rfl, by simp [mcp_endpoint, pyStr, h1, h2, h3, h4]⟩

/-- C5 witness: the amended behaviour at `notifications/cancelled`. -/
theorem c5_notifications_amended_witness :
    mcp_endpoint analyze_query db0
        (.ok ⟨none, some "notifications/initialized", {}, none⟩) = .empty204 ∧
    mcp_endpoint analyze_query db0
        (.ok ⟨none, some ("notifications/" ++ "cancelled"), {}, none⟩) =
      .json "2.0" none
        (.err (-32601) ("Method not found: " ++ ("notifications/" ++ "cancelled"))) 200 :=
  c5_notifications_amended analyze_query db0 none none {} "cancelled" (by decide)

/-- C6: when the tool handler of a `tools/call` request raises, the
dispatcher answers with a SUCCESS envelope whose payload carries the
rendered message and the isError flag; no top-level envelope error is
produced. -/
theorem c6_handler_error_wrapped (wdet : String → ClassificationResult)
    (db : String → DBResult) (jr : Option String) (rid : Option Nat)
    (prms : MCPParams) (e : String) (tr : List String)
    (he : execute_mcp_tool wdet db prms.name prms.arguments = (.error e, tr)) :
    mcp_endpoint wdet db (.ok ⟨jr, some "tools/call", prms, rid⟩) =
      .json (jr.getD "2.0") rid
        (.ok (.toolsCall (.errText ("Error: " ++ e)) true)) 200 := by
  simp [mcp_endpoint, he]

/-- C6 witness: calling `read_query` with `DELETE FROM t` produces the
success envelope with the policy-violation text and isError true. -/
theorem c6_handler_error_wrapped_witness :
    execute_mcp_tool analyze_query db0 (some "read_query")
        { query := some "DELETE FROM t" } =
      (.error "Calls to read_query should not contain write operations", []) ∧
    mcp_endpoint analyze_query db0
        (.ok ⟨none, some "tools/call",
              { name := some "read_query",
                arguments := { query := some "DELETE FROM t" } }, none⟩) =
      .json "2.0" none
        (.ok (.toolsCall
          (.errText ("Error: " ++ "Calls to read_query should not contain write operations"))
          true)) 200 :=
  ⟨by decide,
   c6_handler_error_wrapped analyze_query db0 none none
     { name := some "read_query", arguments := { query := some "DELETE FROM t" } }
     "Calls to read_query should not contain write operations" [] (by decide)⟩

/-- C7: every request with an unrecognized method name gets the fixed
top-level code -32601 with the method named in the message, and every
failure caught by the outer handler gets the fixed code -32603 with the
underlying message attached. -/
theorem c7_fixed_error_codes (wdet : String → ClassificationResult)
    (db : String → DBResult) (jr : Option String) (rid : Option Nat)
    (prms : MCPParams) (m : String) (msg : String)
    (h1 : m ≠ "initialize") (h2 : m ≠ "tools/list") (h3 : m ≠ "tools/call")
    (h4 : m ≠ "notifications/initialized") :
    mcp_endpoint wdet db (.ok ⟨jr, some m, prms, rid⟩) =
      .json (jr.getD "2.0") rid (.err (-32601) ("Method not found: " ++ m)) 200 ∧
    mcp_endpoint wdet db (.error msg) = .json "2.0" none (.err (-32603) msg) 500 := by
  exact ⟨by simp [mcp_endpoint, pyStr, h1, h2, h3, h4], rfl⟩

/-- C7 witness: the two fixed codes at a concrete unknown method and a
concrete internal failure. -/
theorem c7_fixed_error_codes_witness :
    mcp_endpoint analyze_query db0 (.ok ⟨none, some "resources/list", {}, none⟩) =
      .json "2.0" none (.err (-32601) ("Method not found: " ++ "resources/list")) 200 ∧
    mcp_endpoint analyze_query db0 (.error "250001: could not connect") =
      .json "2.0" none (.err (-32603) "250001: could not connect") 500 :=
  c7_fixed_error_codes analyze_query db0 none none {} "resources/list"
    "250001: could not connect" (by decide) (by decide) (by decide) (by decide)

/-- C8 counterexample: `list_tables` interpolates the caller's database
identifier verbatim: with database `mydb` the SQL sent to the client
contains `mydb`, not the upper-cased `MYDB`, so not every identifier is
upper-cased before interpolation. -/
theorem c8_lowercase_database_counterexample :
    (execute_mcp_tool analyze_query db0 (some "list_tables")
        { database := some "mydb", schema := some "public" }).2 =
      [list_tables_query "mydb" "public"] ∧
    list_tables_query "mydb" "public" ≠ list_tables_query (py_upper "mydb") "public" := by
  constructor
  · rfl
  · decide

/-- C8 amended: the fixed-shape tools interpolate nothing but the
caller's identifiers into their fixed templates; `list_schemas` and
`describe_table` upper-case every identifier, and `list_tables` (tool
and REST endpoint alike) upper-cases only the schema, splicing the
database verbatim. -/
theorem c8_templates_amended (wdet : String → ClassificationResult)
    (db : String → DBResult) (d s : String) (hd : d ≠ "") (hs : s ≠ "")
    (tn d2 s2 t2 : String) (restSeg : List String) (htn : tn ≠ "")
    (hsplit : py_split_dot tn = d2 :: s2 :: t2 :: restSeg) :
    (execute_mcp_tool wdet db (some "list_databases") {}).2 = [list_databases_query] ∧
    (execute_mcp_tool wdet db (some "list_schemas") { database := some d }).2 =
      ["SELECT SCHEMA_NAME FROM " ++ py_upper d ++ ".INFORMATION_SCHEMA.SCHEMATA"] ∧
    (execute_mcp_tool wdet db (some "list_tables")
        { database := some d, schema := some s }).2 =
      ["\n            SELECT table_catalog, table_schema, table_name, comment\n            FROM "
        ++ d ++ ".information_schema.tables\n            WHERE table_schema = '"
        ++ py_upper s ++ "'\n        "] ∧
    (list_tables_endpoint db (some d) (some s)).2 = [list_tables_query d s] ∧
    (execute_mcp_tool wdet db (some "describe_table") { table_name := some tn }).2 =
      ["\n            SELECT column_name, column_default, is_nullable, data_type, comment\n            FROM "
        ++ py_upper d2 ++ ".information_schema.columns\n            WHERE table_schema = '"
        ++ py_upper s2 ++ "' AND table_name = '" ++ py_upper t2 ++ "'\n        "] ∧
    (describe_table_endpoint db (some tn)).2 =
      [describe_table_query (py_upper d2) (py_upper s2) (py_upper t2)] := by
  have hge : ¬ (py_split_dot tn).length < 3 := by
    rw [hsplit]
    simp
  have hlen3 : ¬ (restSeg.length + 1 + 1 + 1 < 3) := by omega
  refine ⟨rfl, ?_, ?_, ?_, ?_, ?_⟩
  · simp [execute_mcp_tool, pyTruthy, hd, list_schemas_query]
  · simp [execute_mcp_tool, pyTruthy, hd, hs, list_tables_query]
  · simp [list_tables_endpoint, pyTruthy, hd, hs]
  · simp [execute_mcp_tool, pyTruthy, htn, hge, hsplit, List.getD, describe_table_query, hlen3]
  · simp [describe_table_endpoint, pyTruthy, htn, hge, hsplit, List.getD, hlen3]

/-- C8 witness: the amended template shapes at concrete identifiers. -/
theorem c8_templates_amended_witness :
    (execute_mcp_tool analyze_query db0 (some "list_databases") {}).2 =
      [list_databases_query] ∧
    (execute_mcp_tool analyze_query db0 (some "list_schemas")
        { database := some "mydb" }).2 =
      ["SELECT SCHEMA_NAME FROM " ++ py_upper "mydb" ++ ".INFORMATION_SCHEMA.SCHEMATA"] ∧
    (execute_mcp_tool analyze_query db0 (some "list_tables")
        { database := some "mydb", schema := some "public" }).2 =
      ["\n            SELECT table_catalog, table_schema, table_name, comment\n            FROM "
        ++ "mydb" ++ ".information_schema.tables\n            WHERE table_schema = '"
        ++ py_upper "public" ++ "'\n        "] ∧
    (list_tables_endpoint db0 (some "mydb") (some "public")).2 =
      [list_tables_query "mydb" "public"] ∧
    (execute_mcp_tool analyze_query db0 (some "describe_table")
        { table_name := some "mydb.public.users" }).2 =
      ["\n            SELECT column_name, column_default, is_nullable, data_type, comment\n            FROM "
        ++ py_upper "mydb" ++ ".information_schema.columns\n            WHERE table_schema = '"
        ++ py_upper "public" ++ "' AND table_name = '" ++ py_upper "users" ++ "'\n        "] ∧
    (describe_table_endpoint db0 (some "mydb.public.users")).2 =
      [describe_table_query (py_upper "mydb") (py_upper "public") (py_upper "users")] :=
  c8_templates_amended analyze_query db0 "mydb" "public" (by decide) (by decide)
    "mydb.public.users" "mydb" "public" "users" [] (by decide) (by decide)

/-- C9: `describe_table` rejects a table name of fewer than three
dot-separated segments with a validation error before any database
access (in the tool and in the REST endpoint), and with three or more
segments uses exactly the first three, upper-cased, ignoring the
rest. -/
theorem c9_describe_table_validation (wdet : String → ClassificationResult)
    (db : String → DBResult) (tn1 tn2 : String)
    (hne1 : tn1 ≠ "") (hlt : (py_split_dot tn1).length < 3)
    (hne2 : tn2 ≠ "") (d s t : String) (rest : List String)
    (hsplit : py_split_dot tn2 = d :: s :: t :: rest) :
    (execute_mcp_tool wdet db (some "describe_table") { table_name := some tn1 } =
      (.error "Table name must be fully qualified as 'database.schema.table'", [])) ∧
    (describe_table_endpoint db (some tn1) =
      (.err "Table name must be fully qualified as 'database.schema.table'" 400, [])) ∧
    (execute_mcp_tool wdet db (some "describe_table") { table_name := some tn2 } =
      (.ok (.columnsResult (py_upper d) (py_upper s) (py_upper t)
            (db (describe_table_query (py_upper d) (py_upper s) (py_upper t))).data
            (db (describe_table_query (py_upper d) (py_upper s) (py_upper t))).data_id),
       [describe_table_query (py_upper d) (py_upper s) (py_upper t)])) := by
  have hge : ¬ (py_split_dot tn2).length < 3 := by
    rw [hsplit]
    simp
  refine ⟨?_, ?_, ?_⟩
  · simp [execute_mcp_tool, pyTruthy, hne1, hlt]
  · simp [describe_table_endpoint, pyTruthy, hne1, hlt]
  · simp [execute_mcp_tool, pyTruthy, hne2, hge, hsplit, List.getD]

/-- C9 witness: `a.b` is rejected before any database access, while
`a.b.c.d` resolves to the upper-cased first three segments with the
fourth ignored. -/
theorem c9_describe_table_validation_witness :
    (execute_mcp_tool analyze_query db0 (some "describe_table")
        { table_name := some "a.b" } =
      (.error "Table name must be fully qualified as 'database.schema.table'", [])) ∧
    (describe_table_endpoint db0 (some "a.b") =
      (.err "Table name must be fully qualified as 'database.schema.table'" 400, [])) ∧
    (execute_mcp_tool analyze_query db0 (some "describe_table")
        { table_name := some "a.b.c.d" } =
      (.ok (.columnsResult "A" "B" "C" [] 0),
       [describe_table_query "A" "B" "C"])) :=
  c9_describe_table_validation analyze_query db0 "a.b" "a.b.c.d"
    (by decide) (by decide) (by decide) "a" "b" "c" ["d"] (by decide)

/-- C10: `init_db_client` is idempotent: once the global client is set,
a further call returns the state unchanged and performs no effect — it
neither reloads the environment nor reconnects nor replaces the client
or the write detector. -/
theorem c10_init_idempotent (env : String → Option String) (s : ServerState)
    (h : s.db_client.isSome) :
    init_db_client env s = (.ok s, []) := by
  simp [init_db_client, h]

/-- C10 witness: a second call on an initialized state is a no-op. -/
theorem c10_init_idempotent_witness :
    init_db_client (fun _ => none)
        { db_client := some { connection_args := [("database", "d"), ("schema", "s")] },
          write_detector := some () } =
      (.ok { db_client := some { connection_args := [("database", "d"), ("schema", "s")] },
             write_detector := some () }, []) :=
  c10_init_idempotent (fun _ => none)
    { db_client := some { connection_args := [("database", "d"), ("schema", "s")] },
      write_detector := some () } (by decide)

end Snowflake
